import Mathlib

/-!
Verification of the Quantum-ThermoLedger validation core.

The validation logic of the repository lives in the Rust smart-contract
sources embedded in the web application: the `QuantumValidator` and
`ThermoStateTracker` contracts.  This development gives a shallow
embedding of those contracts in Lean.  Floating-point (`f64`) quantities
are modelled as exact rationals, which is faithful to the source for the
order comparisons and exact decimal constants the contracts use.
-/

/-- Rust `Result<T, E>`: `Ok` carries a success value, `Err` an error value. -/
inductive RustResult (α ε : Type) where
  | Ok : α → RustResult α ε
  | Err : ε → RustResult α ε
deriving DecidableEq, Repr

/-- `QuantumTransition` record from the quantum validator contract. -/
structure QuantumTransition where
  electron_id : String
  initial_energy : ℚ
  final_energy : ℚ
  photon_energy : ℚ
  timestamp : Nat
  validated : Bool
deriving DecidableEq, Repr

/-- `PLANCK_CONSTANT` as declared in `validate_transition` (J.s, unused by the checks). -/
def PLANCK_CONSTANT : ℚ := 6.62607015e-34

/-- `SPEED_OF_LIGHT` as declared in `validate_transition` (m/s, unused by the checks). -/
def SPEED_OF_LIGHT : ℚ := 299792458.0

/-- Rust `f64::abs`, modelled on the rationals. -/
def fabs (x : ℚ) : ℚ := if x < 0 then -x else x

/-- `QuantumValidator::check_selection_rules`: the simplified selection-rule
check of the contract, requiring both energies strictly positive. -/
def check_selection_rules (transition : QuantumTransition) : Bool :=
  decide (transition.initial_energy > 0) && decide (transition.final_energy > 0)

/-- `QuantumValidator::validate_transition`: energy conservation within a
hard-coded tolerance of `1e-15`, then the selection-rule check. -/
def validate_transition (transition : QuantumTransition) : RustResult Bool String :=
  let energy_diff := fabs (transition.final_energy - transition.initial_energy)
  let tolerance : ℚ := 1e-15
  if fabs (transition.photon_energy - energy_diff) > tolerance then
    .Err "Energy conservation violation"
  else if !(check_selection_rules transition) then
    .Err "Quantum selection rules violated"
  else
    .Ok true

/-- The hydrogen n=2 to n=1 transition of the spec: bound-state energies
are negative, photon energy is the exact gap. -/
def hydrogen_2_to_1 : QuantumTransition :=
  { electron_id := "H"
    initial_energy := -3.4
    final_energy := -13.6
    photon_energy := 10.2
    timestamp := 0
    validated := false }

/-- A transition violating energy conservation at the `1e-13` scale:
above the contract tolerance `1e-15` but within the spec tolerance `1e-12`. -/
def drift_transition : QuantumTransition :=
  { electron_id := "d"
    initial_energy := 1
    final_energy := 2
    photon_energy := 1.0000000000001
    timestamp := 0
    validated := false }

/-- A transition with negative, hence non-zero, energies that the
selection-rule check nevertheless rejects. -/
def negative_energy_transition : QuantumTransition :=
  { electron_id := "n"
    initial_energy := -1
    final_energy := -2
    photon_energy := 1
    timestamp := 0
    validated := false }

/-- Claim C1 counterexample: the hydrogen n=2 to n=1 transition with
initial energy -3.4 eV, final energy -13.6 eV and photon energy 10.2 eV is
not accepted; `validate_transition` rejects it with the selection-rule error
because both energies are negative. -/
theorem hydrogen_transition_rejected :
    validate_transition hydrogen_2_to_1 ≠ .Ok true ∧
    validate_transition hydrogen_2_to_1 = .Err "Quantum selection rules violated" := by
  have h : validate_transition hydrogen_2_to_1 = .Err "Quantum selection rules violated" := by
    norm_num [validate_transition, check_selection_rules, fabs, hydrogen_2_to_1]
  exact ⟨by rw [h]; exact fun hc => RustResult.noConfusion hc, h⟩

/-- Claim C1 (amended): every transition with initial energy -3.4 eV,
final energy -13.6 eV and photon energy 10.2 eV passes energy conservation
but fails the simplified selection-rule check, so `validate_transition`
returns the selection-rule error, not `Ok`. -/
theorem hydrogen_transition_result (t : QuantumTransition)
    (h1 : t.initial_energy = -3.4)
    (h2 : t.final_energy = -13.6)
    (h3 : t.photon_energy = 10.2) :
    validate_transition t = .Err "Quantum selection rules violated" := by
  norm_num [validate_transition, check_selection_rules, h1, h2, h3, fabs]

/-- Claim C1 witness: the amended theorem applied at the concrete hydrogen
transition record. -/
theorem hydrogen_transition_result_witness :
    hydrogen_2_to_1.initial_energy = -3.4 ∧
    validate_transition hydrogen_2_to_1 = .Err "Quantum selection rules violated" :=
  ⟨rfl, hydrogen_transition_result hydrogen_2_to_1 rfl rfl rfl⟩

/-- Claim C2 counterexample: a transition whose photon energy misses the
level gap by `1e-13` — within the spec default tolerance `1e-12`, so by the
claim no energy-conservation error should occur — is rejected by
`validate_transition` with the energy-conservation error, because the
contract hard-codes tolerance `1e-15`. -/
theorem tolerance_mismatch :
    validate_transition drift_transition = .Err "Energy conservation violation" ∧
    ¬(fabs (drift_transition.photon_energy -
        fabs (drift_transition.final_energy - drift_transition.initial_energy))
        > (1e-12 : ℚ)) := by
  constructor
  · norm_num [validate_transition, check_selection_rules, fabs, drift_transition]
  · norm_num [fabs, drift_transition]

/-- Claim C2 (amended): `validate_transition` fails with the
energy-conservation error if and only if the absolute mismatch between the
photon energy and the energy gap exceeds the hard-coded tolerance `1e-15`;
the error is the fixed string `Energy conservation violation`, carrying no
numeric diagnostics. -/
theorem energy_conservation_error_iff (t : QuantumTransition) :
    validate_transition t = .Err "Energy conservation violation" ↔
      fabs (t.photon_energy - fabs (t.final_energy - t.initial_energy)) > (1e-15 : ℚ) := by
  simp only [validate_transition]
  split
  next h => exact iff_of_true rfl h
  next h =>
    refine iff_of_false ?_ h
    split
    · intro heq
      exact absurd (RustResult.Err.inj heq) (by decide)
    · intro heq
      exact RustResult.noConfusion heq

/-- Claim C2 witness: the amended iff applied at the drifting transition. -/
theorem energy_conservation_error_iff_witness :
    fabs (drift_transition.photon_energy -
      fabs (drift_transition.final_energy - drift_transition.initial_energy)) > (1e-15 : ℚ) :=
  (energy_conservation_error_iff drift_transition).mp
    (by norm_num [validate_transition, check_selection_rules, fabs, drift_transition])

/-- Claim C7 counterexample: a transition with both energies negative, hence
finite and non-zero, on which `check_selection_rules` nevertheless returns
`false`: the degraded check requires strict positivity, not merely non-zero
energies. -/
theorem selection_rules_reject_nonzero :
    check_selection_rules negative_energy_transition = false ∧
    negative_energy_transition.initial_energy ≠ 0 ∧
    negative_energy_transition.final_energy ≠ 0 := by
  refine ⟨?_, ?_, ?_⟩ <;> norm_num [check_selection_rules, negative_energy_transition]

/-- Claim C7 (amended): the degraded selection-rule check returns `true` if
and only if both the initial and the final energy are strictly positive. -/
theorem selection_rules_positivity (t : QuantumTransition) :
    check_selection_rules t = true ↔
      (0 < t.initial_energy ∧ 0 < t.final_energy) := by
  simp [check_selection_rules]

/-- `PhaseState` enumeration from the thermo state tracker contract. -/
inductive PhaseState where
  | Solid
  | Liquid
  | Gas
  | Plasma
deriving DecidableEq, Repr

/-- `ThermodynamicState` record from the thermo state tracker contract. -/
structure ThermodynamicState where
  substance_id : String
  temperature : ℚ
  pressure : ℚ
  phase : PhaseState
  entropy : ℚ
  enthalpy : ℚ
  gibbs_energy : ℚ
  timestamp : Nat
deriving DecidableEq, Repr

/-- `ThermoStateTracker::validate_gibbs_energy`: recomputes G = H - T*S for
both states and accepts when the change is non-positive. -/
def validate_gibbs_energy (initial final : ThermodynamicState) : Bool :=
  let initial_g := initial.enthalpy - initial.temperature * initial.entropy
  let final_g := final.enthalpy - final.temperature * final.entropy
  decide ((final_g - initial_g) ≤ 0)

/-- `ThermoStateTracker::is_valid_phase_transition`: the fixed adjacency
table over the four phases, with the catch-all arm accepting equal phases. -/
def is_valid_phase_transition (src dst : PhaseState) : Bool :=
  match src, dst with
  | .Solid, .Liquid => true
  | .Liquid, .Solid => true
  | .Liquid, .Gas => true
  | .Gas, .Liquid => true
  | .Solid, .Gas => true
  | .Gas, .Solid => true
  | .Gas, .Plasma => true
  | .Plasma, .Gas => true
  | _, _ => decide (src = dst)

/-- `ThermoStateTracker::validate_state_change`: entropy check, then Gibbs
check, then phase-adjacency check, returning at the first failure. -/
def validate_state_change (initial_state final_state : ThermodynamicState) :
    RustResult Bool String :=
  if final_state.entropy < initial_state.entropy then
    .Err "Second law violation: entropy decrease"
  else if !(validate_gibbs_energy initial_state final_state) then
    .Err "Invalid Gibbs free energy change"
  else if !(is_valid_phase_transition initial_state.phase final_state.phase) then
    .Err "Invalid phase transition"
  else
    .Ok true

/-- A state whose entropy will drop and whose Gibbs energy will rise in the
paired final state: both the second law and the Gibbs condition fail. -/
def entropy_drop_initial : ThermodynamicState :=
  { substance_id := "X"
    temperature := 1
    pressure := 1
    phase := .Solid
    entropy := 10
    enthalpy := 0
    gibbs_energy := -10
    timestamp := 0 }

/-- Final state for the double-violation pair: entropy 5 < 10 and
G = 10 - 1*5 = 5 > -10 = G(initial). -/
def entropy_drop_final : ThermodynamicState :=
  { substance_id := "X"
    temperature := 1
    pressure := 1
    phase := .Solid
    entropy := 5
    enthalpy := 10
    gibbs_energy := 5
    timestamp := 1 }

/-- Claim C3 counterexample: a state pair violating both the second law and
the Gibbs condition, for which `validate_state_change` reports only the
entropy violation: the result is the entropy error alone even though the
Gibbs check also fails, refuting batched reporting. -/
theorem double_violation_single_report :
    validate_state_change entropy_drop_initial entropy_drop_final =
      .Err "Second law violation: entropy decrease" ∧
    validate_gibbs_energy entropy_drop_initial entropy_drop_final = false := by
  constructor
  · norm_num [validate_state_change, validate_gibbs_energy,
      entropy_drop_initial, entropy_drop_final]
  · norm_num [validate_gibbs_energy, entropy_drop_initial, entropy_drop_final]

/-- Claim C3 (amended): `validate_state_change` is fail-fast, not batched:
whenever the entropy check fails, the returned error is the entropy error
alone, regardless of whether the Gibbs or phase checks would also fail. -/
theorem state_change_fail_fast (si sf : ThermodynamicState)
    (h1 : sf.entropy < si.entropy) :
    validate_state_change si sf = .Err "Second law violation: entropy decrease" := by
  unfold validate_state_change
  rw [if_pos h1]

/-- Claim C3 witness: the fail-fast theorem applied at the pair that also
violates the Gibbs condition. -/
theorem state_change_fail_fast_witness :
    entropy_drop_final.entropy < entropy_drop_initial.entropy ∧
    validate_state_change entropy_drop_initial entropy_drop_final =
      .Err "Second law violation: entropy decrease" :=
  ⟨by norm_num [entropy_drop_initial, entropy_drop_final],
   state_change_fail_fast _ _ (by norm_num [entropy_drop_initial, entropy_drop_final])⟩

/-- Claim C4: `validate_state_change` succeeds with `Ok true` if and only if
the entropy is non-decreasing, the recomputed Gibbs free-energy change is
non-positive, and the phase pair is adjacent; when any condition fails it
returns an error. -/
theorem state_change_ok_iff (si sf : ThermodynamicState) :
    (validate_state_change si sf = .Ok true ↔
      (si.entropy ≤ sf.entropy ∧
        (sf.enthalpy - sf.temperature * sf.entropy) -
          (si.enthalpy - si.temperature * si.entropy) ≤ 0 ∧
        is_valid_phase_transition si.phase sf.phase = true)) ∧
    (¬(si.entropy ≤ sf.entropy ∧
        (sf.enthalpy - sf.temperature * sf.entropy) -
          (si.enthalpy - si.temperature * si.entropy) ≤ 0 ∧
        is_valid_phase_transition si.phase sf.phase = true) →
      ∃ e, validate_state_change si sf = .Err e) := by
  unfold validate_state_change
  split
  next h1 =>
    refine ⟨iff_of_false (fun heq => RustResult.noConfusion heq)
      (fun hc => absurd hc.1 (not_le.mpr h1)), fun _ => ⟨_, rfl⟩⟩
  next h1 =>
    rw [not_lt] at h1
    split
    next h2 =>
      rw [Bool.not_eq_true'] at h2
      have h2' : ¬((sf.enthalpy - sf.temperature * sf.entropy) -
          (si.enthalpy - si.temperature * si.entropy) ≤ 0) := by
        simpa [validate_gibbs_energy] using h2
      refine ⟨iff_of_false (fun heq => RustResult.noConfusion heq)
        (fun hc => absurd hc.2.1 h2'), fun _ => ⟨_, rfl⟩⟩
    next h2 =>
      have h2' : (sf.enthalpy - sf.temperature * sf.entropy) -
          (si.enthalpy - si.temperature * si.entropy) ≤ 0 := by
        simpa [validate_gibbs_energy] using h2
      split
      next h3 =>
        rw [Bool.not_eq_true'] at h3
        refine ⟨iff_of_false (fun heq => RustResult.noConfusion heq)
          (fun hc => by rw [hc.2.2] at h3; exact Bool.noConfusion h3),
          fun _ => ⟨_, rfl⟩⟩
      next h3 =>
        have h3' : is_valid_phase_transition si.phase sf.phase = true := by
          simpa using h3
        exact ⟨iff_of_true rfl ⟨h1, h2', h3'⟩, fun hn => absurd ⟨h1, h2', h3'⟩ hn⟩

/-- Claim C4 witness: the success characterization applied at a concrete
melting step with rising entropy and falling Gibbs energy. -/
theorem state_change_ok_iff_witness :
    validate_state_change
      { substance_id := "W"
        temperature := 2
        pressure := 1
        phase := .Solid
        entropy := 1
        enthalpy := 5
        gibbs_energy := 3
        timestamp := 0 }
      { substance_id := "W"
        temperature := 2
        pressure := 1
        phase := .Liquid
        entropy := 2
        enthalpy := 5
        gibbs_energy := 1
        timestamp := 1 } = .Ok true :=
  (state_change_ok_iff _ _).1.mpr ⟨by norm_num, by norm_num, rfl⟩

/-- Solid state with rising-entropy, falling-Gibbs pairing below: only the
phase-adjacency check can reject the pair. -/
def solid_probe : ThermodynamicState :=
  { substance_id := "Z"
    temperature := 1
    pressure := 1
    phase := .Solid
    entropy := 1
    enthalpy := 5
    gibbs_energy := 4
    timestamp := 0 }

/-- Plasma state paired with `solid_probe`: entropy 2 > 1 and
G = 5 - 1*2 = 3 < 4 = G(solid_probe). -/
def plasma_probe : ThermodynamicState :=
  { substance_id := "Z"
    temperature := 1
    pressure := 1
    phase := .Plasma
    entropy := 2
    enthalpy := 5
    gibbs_energy := 3
    timestamp := 1 }

/-- Solid state whose entropy drops in the paired plasma state below. -/
def solid_probe_drop : ThermodynamicState :=
  { substance_id := "Z"
    temperature := 300
    pressure := 101325
    phase := .Solid
    entropy := 10
    enthalpy := 0
    gibbs_energy := 0
    timestamp := 0 }

/-- Plasma state with entropy 5 < 10, paired with `solid_probe_drop`. -/
def plasma_probe_drop : ThermodynamicState :=
  { substance_id := "Z"
    temperature := 300
    pressure := 101325
    phase := .Plasma
    entropy := 5
    enthalpy := 0
    gibbs_energy := 0
    timestamp := 1 }

/-- Claim C5 counterexample: a direct Solid-to-Plasma pair whose entropy
also decreases is rejected with the entropy error, not the phase-transition
error: the reported error is not `Invalid phase transition` for every
entropy/Gibbs assignment. -/
theorem solid_plasma_entropy_error_first :
    solid_probe_drop.phase = .Solid ∧
    plasma_probe_drop.phase = .Plasma ∧
    validate_state_change solid_probe_drop plasma_probe_drop =
      .Err "Second law violation: entropy decrease" ∧
    validate_state_change solid_probe_drop plasma_probe_drop ≠
      .Err "Invalid phase transition" := by
  have h : validate_state_change solid_probe_drop plasma_probe_drop =
      .Err "Second law violation: entropy decrease" := by
    norm_num [validate_state_change, validate_gibbs_energy,
      solid_probe_drop, plasma_probe_drop]
  refine ⟨rfl, rfl, h, ?_⟩
  rw [h]
  intro heq
  exact absurd (RustResult.Err.inj heq) (by decide)

/-- Claim C5 (amended): a direct Solid-to-Plasma state change never
succeeds, whatever the entropy and Gibbs values; the reported error is
`Invalid phase transition` exactly when the entropy and Gibbs checks pass,
and otherwise the earlier failing check's error. -/
theorem solid_plasma_always_fails (si sf : ThermodynamicState)
    (hp1 : si.phase = .Solid) (hp2 : sf.phase = .Plasma) :
    (∀ b, validate_state_change si sf ≠ .Ok b) ∧
    (si.entropy ≤ sf.entropy → validate_gibbs_energy si sf = true →
      validate_state_change si sf = .Err "Invalid phase transition") := by
  have hphase : is_valid_phase_transition si.phase sf.phase = false := by
    rw [hp1, hp2]; rfl
  constructor
  · intro b
    unfold validate_state_change
    split
    · exact fun heq => RustResult.noConfusion heq
    · split
      · exact fun heq => RustResult.noConfusion heq
      · split
        · exact fun heq => RustResult.noConfusion heq
        · next h3 => exact absurd (by rw [hphase]; rfl) h3
  · intro hs hg
    unfold validate_state_change
    rw [if_neg (not_lt.mpr hs), hg, hphase]
    decide

/-- Claim C5 witness: the amended theorem at a Solid-to-Plasma pair whose
entropy rises and Gibbs energy falls, yielding the phase-transition error. -/
theorem solid_plasma_always_fails_witness :
    validate_state_change solid_probe plasma_probe ≠ .Ok true ∧
    validate_state_change solid_probe plasma_probe = .Err "Invalid phase transition" :=
  ⟨(solid_plasma_always_fails solid_probe plasma_probe rfl rfl).1 true,
   (solid_plasma_always_fails solid_probe plasma_probe rfl rfl).2
     (by norm_num [solid_probe, plasma_probe])
     (by norm_num [validate_gibbs_energy, solid_probe, plasma_probe])⟩

/-- Claim C6: the phase-adjacency table is symmetric, and every phase is
adjacent to itself. -/
theorem phase_transition_symm_refl (a b : PhaseState) :
    is_valid_phase_transition a b = is_valid_phase_transition b a ∧
    is_valid_phase_transition a a = true := by
  cases a <;> cases b <;> exact ⟨rfl, rfl⟩

/-- A transition with strictly positive energies and an exactly conserved
photon energy: accepted by `validate_transition`. -/
def good_transition : QuantumTransition :=
  { electron_id := "g"
    initial_energy := 1
    final_energy := 3
    photon_energy := 2
    timestamp := 0
    validated := false }

/-- Claim C9: the success channel of both validators only ever carries
`true`: an `Ok` result always wraps `true`. -/
theorem ok_carries_true (t : QuantumTransition) (si sf : ThermodynamicState)
    (b c : Bool) :
    (validate_transition t = .Ok b → b = true) ∧
    (validate_state_change si sf = .Ok c → c = true) := by
  constructor
  · intro h
    simp only [validate_transition] at h
    split at h
    · exact RustResult.noConfusion h
    · split at h
      · exact RustResult.noConfusion h
      · exact (RustResult.Ok.inj h).symm
  · intro h
    unfold validate_state_change at h
    split at h
    · exact RustResult.noConfusion h
    · split at h
      · exact RustResult.noConfusion h
      · split at h
        · exact RustResult.noConfusion h
        · exact (RustResult.Ok.inj h).symm

/-- Claim C9 witness: both implications applied at concrete inputs whose
results are `Ok`. -/
theorem ok_carries_true_witness :
    validate_transition good_transition = .Ok true ∧ true = true :=
  ⟨by norm_num [validate_transition, check_selection_rules, fabs, good_transition],
   (ok_carries_true good_transition solid_probe plasma_probe true true).1
     (by norm_num [validate_transition, check_selection_rules, fabs, good_transition])⟩

/-- Claim C10: `validate_state_change` reads only the temperature, entropy,
enthalpy and phase of the two states: two input pairs agreeing on those
fields get equal results, whatever their substance ids, pressures, stored
Gibbs energies and timestamps. -/
theorem state_change_field_independence (i1 f1 i2 f2 : ThermodynamicState)
    (hti : i1.temperature = i2.temperature) (hsi : i1.entropy = i2.entropy)
    (hhi : i1.enthalpy = i2.enthalpy) (hpi : i1.phase = i2.phase)
    (htf : f1.temperature = f2.temperature) (hsf : f1.entropy = f2.entropy)
    (hhf : f1.enthalpy = f2.enthalpy) (hpf : f1.phase = f2.phase) :
    validate_state_change i1 f1 = validate_state_change i2 f2 := by
  unfold validate_state_change validate_gibbs_energy
  rw [hti, hsi, hhi, hpi, htf, hsf, hhf, hpf]

/-- Initial state of the first C10 probe pair. -/
def probe_initial_a : ThermodynamicState :=
  { substance_id := "A"
    temperature := 2
    pressure := 1
    phase := .Liquid
    entropy := 3
    enthalpy := 7
    gibbs_energy := 1
    timestamp := 0 }

/-- Final state of the first C10 probe pair. -/
def probe_final_a : ThermodynamicState :=
  { substance_id := "A"
    temperature := 2
    pressure := 1
    phase := .Gas
    entropy := 4
    enthalpy := 7
    gibbs_energy := 2
    timestamp := 1 }

/-- Initial state of the second C10 probe pair: same temperature, entropy,
enthalpy and phase as `probe_initial_a`, all other fields different. -/
def probe_initial_b : ThermodynamicState :=
  { substance_id := "B"
    temperature := 2
    pressure := 99
    phase := .Liquid
    entropy := 3
    enthalpy := 7
    gibbs_energy := 123
    timestamp := 42 }

/-- Final state of the second C10 probe pair: same temperature, entropy,
enthalpy and phase as `probe_final_a`, all other fields different. -/
def probe_final_b : ThermodynamicState :=
  { substance_id := "B"
    temperature := 2
    pressure := 99
    phase := .Gas
    entropy := 4
    enthalpy := 7
    gibbs_energy := -55
    timestamp := 43 }

/-- Claim C10 witness: the independence theorem applied at two pairs
differing in substance id, pressure, stored Gibbs energy and timestamp. -/
theorem state_change_field_independence_witness :
    probe_initial_a.substance_id ≠ probe_initial_b.substance_id ∧
    probe_initial_a.gibbs_energy ≠ probe_initial_b.gibbs_energy ∧
    validate_state_change probe_initial_a probe_final_a =
      validate_state_change probe_initial_b probe_final_b :=
  ⟨by decide, by norm_num [probe_initial_a, probe_initial_b],
   state_change_field_independence probe_initial_a probe_final_a
     probe_initial_b probe_final_b rfl rfl rfl rfl rfl rfl rfl rfl⟩

/-- Modelled from the spec: the repository declares a `consensus_validator`
binary in its Cargo manifest but ships no source for it, so the consensus
quorum policy is modelled from the specification: a vote is `Valid` or
`Invalid`. -/
inductive Verdict where
  | Valid
  | Invalid
deriving DecidableEq, Repr

/-- Modelled from the spec: lifecycle states of a proposal under consensus
(the deadline-driven `TimedOut` state is unreachable in this vote-only
model but kept for completeness of the state space). -/
inductive ConsensusState where
  | Pending
  | Collecting
  | FinalizedValid
  | FinalizedInvalid
  | TimedOut
deriving DecidableEq, Repr

/-- Modelled from the spec: the per-proposal tally of recorded votes. -/
structure VoteTally where
  valid_votes : Nat
  invalid_votes : Nat
deriving DecidableEq, Repr

/-- Modelled from the spec: recording one vote increments its counter. -/
def record_vote (t : VoteTally) (v : Verdict) : VoteTally :=
  match v with
  | .Valid => { t with valid_votes := t.valid_votes + 1 }
  | .Invalid => { t with invalid_votes := t.invalid_votes + 1 }

/-- Modelled from the spec: the quorum policy over `N` expected validators
with threshold `Q`: finalize `Valid` once `Q` valid votes are in, finalize
`Invalid` once `N - Q + 1` invalid votes are in (a valid quorum is then
impossible), otherwise stay `Pending` (no votes) or `Collecting`. -/
def consensus_state (N Q : Nat) (t : VoteTally) : ConsensusState :=
  if Q ≤ t.valid_votes then .FinalizedValid
  else if N - Q + 1 ≤ t.invalid_votes then .FinalizedInvalid
  else if t.valid_votes + t.invalid_votes = 0 then .Pending
  else .Collecting

/-- Modelled from the spec: submit a sequence of votes for one proposal and
read off the resulting consensus state. -/
def submit_votes (N Q : Nat) (votes : List Verdict) : ConsensusState :=
  consensus_state N Q (votes.foldl record_vote ⟨0, 0⟩)

/-- Claim C8: with 5 validators and quorum 3, two matching votes leave the
proposal collecting, a third `Valid` vote finalizes it as `Valid` without
the remaining two votes, and a third `Invalid` vote (reaching
N - Q + 1 = 3) finalizes it as `Invalid`. -/
theorem consensus_quorum_finalizes :
    submit_votes 5 3 [.Valid, .Valid] = .Collecting ∧
    submit_votes 5 3 [.Valid, .Valid, .Valid] = .FinalizedValid ∧
    submit_votes 5 3 [.Invalid, .Invalid] = .Collecting ∧
    submit_votes 5 3 [.Invalid, .Invalid, .Invalid] = .FinalizedInvalid := by
  decide
